import Mathlib

/-!
Shallow embedding of the GHW_GenAI_25 blog-generation apps
(src/AI_Blog_Agent/app.py and src/AL_Blog_Post/app.py).

Python strings are modelled as Lean String values; the process
environment as a function from variable names to Option String;
the external agent runtime (crewai) and the streamlit result cache
as explicit state-passing functions modelled from the spec where the
library code is outside this repository.
-/

/- ## Python string primitives used by the apps -/

/-- Python truthiness of a string: falsy exactly when empty. -/
def pyTruthy (s : String) : Bool := !(s == "")

/-- Python truthiness of an os.getenv result: falsy when unset or empty. -/
def pyTruthyOpt : Option String → Bool
  | none => false
  | some s => pyTruthy s

/-- The characters Python str.strip removes by default. -/
def pyIsSpace (c : Char) : Bool :=
  c == ' ' || c == '\t' || c == '\n' || c == '\r' || c == '\x0b' || c == '\x0c'

/-- Python str.strip: drop whitespace at both ends. -/
def pyStrip (s : String) : String :=
  ⟨List.reverse (List.dropWhile pyIsSpace (List.reverse (List.dropWhile pyIsSpace s.data)))⟩

/-- Python str.replace with a single-character pattern, specialised to
the only use in the apps: replace each space with an underscore. -/
def pyReplaceSpace (s : String) : String :=
  ⟨s.data.map (fun c => if c = ' ' then '_' else c)⟩

/-- Python slicing s[:n] on a string: the first n characters. -/
def pySlice (n : Nat) (s : String) : String := ⟨s.data.take n⟩

/- ## Data model (spec section 3) -/

/-- Credentials: the LLM token and the search key. -/
structure Credentials where
  llmToken : String
  searchKey : String
deriving DecidableEq

/-- The crewai LLM value object: model identifier, api key, optional base url. -/
structure LLMSpec where
  model : String
  api_key : String
  base_url : Option String
deriving DecidableEq

/-- A tool capability reference (SerperDevTool in both apps). -/
structure ToolRef where
  kind : String
  api_key : Option String
deriving DecidableEq

/-- An agent descriptor as constructed by crewai.Agent in the apps. -/
structure AgentSpec where
  role : String
  goal : String
  backstory : String
  tools : List ToolRef
  verbose : Bool
  allow_delegation : Bool
  llm : LLMSpec
deriving DecidableEq

/-- The context-free part of a task descriptor. -/
structure TaskCore where
  description : String
  expected_output : String
  agent : AgentSpec
deriving DecidableEq

/-- A task descriptor: core fields plus the declared data dependencies
(the crewai context list). In both apps a context task itself has an
empty context, so dependencies are one level deep. -/
structure TaskSpec where
  core : TaskCore
  context : List TaskCore
deriving DecidableEq

/- ## src/AI_Blog_Agent/app.py -/

/-- The names imported from the crewai package at
src/AI_Blog_Agent/app.py line 3: Agent, Task, Crew, Process.
Note that LLM is not among them. -/
def crewai_line3_imports : List String := ["Agent", "Task", "Crew", "Process"]

/-- get_clarifai_llm (lines 21-26): builds the LLM value object for the
requested model. The body references the name LLM, which line 3 never
imports, so in Python the call raises NameError; the embedding returns
an error in that case. -/
def get_clarifai_llm (creds : Credentials) (model_name : String) : Except String LLMSpec :=
  if crewai_line3_imports.contains "LLM" then
    .ok { model := model_name
          api_key := creds.llmToken
          base_url := some "https://api.clarifai.com/v2/ext/openai/v1" }
  else
    .error "NameError: name LLM is not defined"

/-- The module-level search tool (line 29): SerperDevTool built without
an explicit key (it reads SERPER_API_KEY from the environment). -/
def search_tool_AI : ToolRef := { kind := "SerperDevTool", api_key := none }

/-- The researcher descriptor of create_agents (lines 33-43), given an
LLM binding. Role, goal and backstory are fixed string literals. -/
def researcher_descr_AI (llm : LLMSpec) : AgentSpec :=
  { role := "Senior Research Analyst"
    goal := "Uncover cutting-edge developments and facts on a given topic"
    backstory := "Expert research analyst at a tech think tank with 10+ years experience. \n        Specializes in identifying emerging trends, gathering verified information, \n        and presenting actionable insights with academic rigor."
    tools := [search_tool_AI]
    verbose := true
    allow_delegation := false
    llm := llm }

/-- The writer descriptor of create_agents (lines 45-54), given an
LLM binding. Role, goal and backstory are fixed string literals. -/
def writer_descr_AI (llm : LLMSpec) : AgentSpec :=
  { role := "Tech Content Strategist"
    goal := "Craft compelling blog posts on technical topics"
    backstory := "Award-winning content strategist with 15+ industry awards. \n        Transforms complex technical concepts into engaging narratives for tech-savvy audiences\n        while maintaining factual accuracy and readability."
    tools := []
    verbose := true
    allow_delegation := true
    llm := llm }

/-- create_agents (lines 32-55): each Agent construction evaluates
get_clarifai_llm(model_name) among its arguments, so the missing LLM
name surfaces here. -/
def create_agents (creds : Credentials) (model_name : String) :
    Except String (AgentSpec × AgentSpec) := do
  let researcher_llm ← get_clarifai_llm creds model_name
  let writer_llm ← get_clarifai_llm creds model_name
  .ok (researcher_descr_AI researcher_llm, writer_descr_AI writer_llm)

/-- The research task core of create_tasks (lines 59-68): the f-string
description interpolated with the topic. -/
def research_task_core (topic : String) (researcher : AgentSpec) : TaskCore :=
  { description := "Conduct comprehensive analysis of \x27" ++ topic ++ "\x27. \n        Identify: \n        - Key trends and breakthrough technologies \n        - Major players and institutions \n        - Potential industry impacts\n        - Verified sources and data points"
    expected_output := "Detailed analysis report with bullet points and sources"
    agent := researcher }

/-- The writing task core of create_tasks (lines 70-87): the f-string
description interpolated with the topic. -/
def writing_task_core (topic : String) (writer : AgentSpec) : TaskCore :=
  { description := "Using research on \x27" ++ topic ++ "\x27, develop an engaging blog post with:\n        - Compelling headline\n        - Clear introduction\n        - 3-5 body paragraphs with supporting evidence\n        - Conclusion with future outlook\n        - Accessible language with technical terms explained\n        Format requirements:\n        # Title\n        ## Section headers\n        **Bold** for emphasis\n        - Bullet points where appropriate\n        > Blockquotes for important insights\n        NO code blocks or triple backticks"
    expected_output := "4-5 paragraph blog post in clean markdown"
    agent := writer }

/-- create_tasks (lines 58-88): the writing task declares
context=[research_task], its data dependency on the research task. -/
def create_tasks (topic : String) (researcher writer : AgentSpec) : TaskSpec × TaskSpec :=
  ({ core := research_task_core topic researcher, context := [] },
   { core := writing_task_core topic writer
     context := [research_task_core topic researcher] })

/- ## The external agent runtime (crewai Crew, Process.sequential) -/

/-- Output of one completed task: look up its recorded textual output. -/
def lookupOutput (completed : List (TaskCore × String)) (c : TaskCore) : Option String :=
  match completed with
  | [] => none
  | (t, o) :: rest => if t = c then some o else lookupOutput rest c

/-- Join the outputs a task receives as its context. -/
def joinContext : List String → String
  | [] => ""
  | [s] => s
  | s :: rest => s ++ "\n\n" ++ joinContext rest

/-- The context text a task receives: the outputs of the completed tasks
its context field names. -/
def contextOf (completed : List (TaskCore × String)) (t : TaskSpec) : String :=
  joinContext (t.context.filterMap (lookupOutput completed))

/-- One execution of a task by the runtime: the task, the context text it
received, and the textual output it produced. -/
structure ExecEvent where
  task : TaskCore
  contextText : String
  output : String
deriving DecidableEq

/-- Modelled from the spec: the crewai sequential process (spec section 4.4
and section 6, external agent-orchestration runtime, not part of this
repository) executes the task list strictly in order; each task receives
the recorded outputs of the tasks its context field names, which are
available because those tasks completed earlier; exec is the opaque
per-task LLM collaborator. -/
def seq_run (exec : TaskCore → String → String) :
    List (TaskCore × String) → List TaskSpec → List ExecEvent
  | _, [] => []
  | completed, t :: rest =>
    let ctx := contextOf completed t
    let out := exec t.core ctx
    { task := t.core, contextText := ctx, output := out } ::
      seq_run exec (completed ++ [(t.core, out)]) rest

/-- Modelled from the spec: Crew(..., process=Process.sequential).kickoff()
runs the tasks sequentially from an empty completed list. -/
def crew_kickoff (exec : TaskCore → String → String) (tasks : List TaskSpec) : List ExecEvent :=
  seq_run exec [] tasks

/- ## Startup credential check (src/AI_Blog_Agent/app.py lines 8-18) -/

/-- The module-level check: read CLARIFAI_PAT and SERPER_API_KEY from the
environment; if either is falsy, st.error the message and st.stop.
On success the two values are the credentials of the session. -/
def startup_AI (env : String → Option String) : Except String Credentials :=
  let CLARIFAI_PAT := env "CLARIFAI_PAT"
  let SERPER_API_KEY := env "SERPER_API_KEY"
  if !(pyTruthyOpt CLARIFAI_PAT) then
    .error "Please set CLARIFAI_PAT environment variable"
  else if !(pyTruthyOpt SERPER_API_KEY) then
    .error "Please set SERPER_API_KEY environment variable"
  else
    .ok { llmToken := CLARIFAI_PAT.getD "", searchKey := SERPER_API_KEY.getD "" }

/-- The whole script run of the AI variant: the module-level check runs
before main, and st.stop halts rendering, so on a missing credential the
only visible output is the error message and the session body (which
contains all orchestration) never runs. -/
def app_run_AI (env : String → Option String) (session : Credentials → List String) :
    List String :=
  match startup_AI env with
  | .error m => [m]
  | .ok creds => session creds

/- ## User-visible events of a generate click -/

/-- A user-visible or ambient effect of the click handler. -/
inductive UiEvent where
  | status_line (text : String)
  | env_write (key value : String)
  | constructed (what : String)
  | kickoff_attempt (topic model_name : String)
  | markdown_shown (text : String)
  | download_offered (file_name data : String)
  | error_shown (text : String)
  | warning_shown (text : String)
deriving DecidableEq

/-- Count the events satisfying p. -/
def countEv (p : UiEvent → Bool) : List UiEvent → Nat
  | [] => 0
  | e :: rest => (if p e then 1 else 0) + countEv p rest

/-- The events that write the process environment. -/
def envWrites : List UiEvent → List UiEvent
  | [] => []
  | UiEvent.env_write k v :: rest => UiEvent.env_write k v :: envWrites rest
  | _ :: rest => envWrites rest

def is_kickoff : UiEvent → Bool
  | UiEvent.kickoff_attempt _ _ => true
  | _ => false

/-- RunResult content shown to the user: the rendered markdown or the
download affordance carrying it. -/
def is_result_render : UiEvent → Bool
  | UiEvent.markdown_shown _ => true
  | UiEvent.download_offered _ _ => true
  | _ => false

/- ## Download filename (AI line 151, AL line 207) -/

/-- f-string topic.replace(space, underscore)[:30] ++ _blog.md used by the
st.download_button of both variants. -/
def download_file_name (topic : String) : String :=
  pySlice 30 (pyReplaceSpace topic) ++ "_blog.md"

/- ## Generate buttons -/

/-- AI variant (line 134): disabled=not topic.strip(). -/
def generate_disabled_AI (topic : String) : Bool :=
  !(pyTruthy (pyStrip topic))

/-- AL variant (line 96): disabled=not (topic and clarifai_pat and serper_key).
Python and-chains are falsy when any operand is falsy. -/
def generate_disabled_AL (topic clarifai_pat serper_key : String) : Bool :=
  !(pyTruthy topic && pyTruthy clarifai_pat && pyTruthy serper_key)

/- ## Click handler of the AI variant (lines 134-155) -/

/-- The body of the enabled generate button in src/AI_Blog_Agent/app.py:
three fixed progress lines, one run_blog_generation attempt, then either
the rendered result with its download control or the caught error shown
as Error: str(e). -/
def click_flow_AI (topic model_name : String) (attempt : Except String String) :
    List UiEvent :=
  [UiEvent.status_line "1. Researching topic...",
   UiEvent.status_line "2. Analyzing findings...",
   UiEvent.status_line "3. Writing blog post...",
   UiEvent.kickoff_attempt topic model_name] ++
  match attempt with
  | .ok result =>
      [UiEvent.markdown_shown result,
       UiEvent.download_offered (download_file_name topic) result]
  | .error e => [UiEvent.error_shown ("Error: " ++ e)]

/- ## Click handler of the AL variant (src/AL_Blog_Post/app.py lines 96-227) -/

/-- The body of the enabled generate button in src/AL_Blog_Post/app.py:
guard on topic.strip and on the two keys, then write both secrets into
the process environment, construct the LLM, tool, agents, tasks and crew,
run kickoff once, and either render the result with its download control
or show the caught error as Error occurred: str(e).
Returns the event trace and the environment after the click. -/
def click_flow_AL (env : String → Option String)
    (topic clarifai_pat serper_key model_name : String)
    (attempt : Except String String) : List UiEvent × (String → Option String) :=
  if pyStrip topic = "" then
    ([UiEvent.warning_shown "Please enter a valid topic"], env)
  else if clarifai_pat = "" ∨ serper_key = "" then
    ([UiEvent.error_shown "Please provide both API keys"], env)
  else
    let env1 : String → Option String :=
      fun k => if k = "CLARIFAI_PAT" then some clarifai_pat else env k
    let env2 : String → Option String :=
      fun k => if k = "SERPER_API_KEY" then some serper_key else env1 k
    ([UiEvent.env_write "CLARIFAI_PAT" clarifai_pat,
      UiEvent.env_write "SERPER_API_KEY" serper_key,
      UiEvent.constructed "LLM",
      UiEvent.constructed "SerperDevTool",
      UiEvent.constructed "Agent researcher",
      UiEvent.constructed "Agent writer",
      UiEvent.constructed "Task research",
      UiEvent.constructed "Task writing",
      UiEvent.constructed "Crew",
      UiEvent.kickoff_attempt topic model_name] ++
     (match attempt with
      | .ok result =>
          [UiEvent.markdown_shown result,
           UiEvent.download_offered (download_file_name topic) result]
      | .error e => [UiEvent.error_shown ("Error occurred: " ++ e)]),
     env2)

/- ## Agents of the AL variant (lines 137-154) -/

/-- The two Agent constructions inside the AL click handler: roles and
backstories are fixed literals, but both goal f-strings interpolate the
topic. -/
def create_agents_AL (topic : String) (llm : LLMSpec) (search_tool : ToolRef) :
    AgentSpec × AgentSpec :=
  ({ role := "Research Analyst"
     goal := "Research comprehensive information about " ++ topic
     backstory := "You are an expert research analyst with deep knowledge across various domains."
     tools := [search_tool]
     verbose := false
     allow_delegation := false
     llm := llm },
   { role := "Content Writer"
     goal := "Write an engaging blog post about " ++ topic
     backstory := "You are a skilled content writer who creates engaging and informative blog posts."
     tools := []
     verbose := false
     allow_delegation := false
     llm := llm })

/- ## The result cache of the AI variant (line 91) -/

/-- A cached RunResult with the time it was stored. -/
structure CacheEntry where
  result : String
  stored_at : Nat
deriving DecidableEq

/-- The cache is keyed by the argument pair (topic, model_name). -/
def Cache := List ((String × String) × CacheEntry)

/-- First entry for the key, newest first. -/
def cacheLookup (c : List ((String × String) × CacheEntry)) (key : String × String) :
    Option CacheEntry :=
  match c with
  | [] => none
  | (k, e) :: rest => if k = key then some e else cacheLookup rest key

/-- One uncached execution: run the collaborator once; on success store the
result at the current time, on failure store nothing. The Nat component
counts collaborator invocations. -/
def fresh_run (cache : List ((String × String) × CacheEntry))
    (topic model_name : String) (now : Nat) (attempt : Except String String) :
    Except String String × List ((String × String) × CacheEntry) × Nat :=
  match attempt with
  | .ok r => (.ok r, ((topic, model_name), { result := r, stored_at := now }) :: cache, 1)
  | .error e => (.error e, cache, 1)

/-- Modelled from the spec: the st.cache_data(ttl=3600) decorator on
run_blog_generation (streamlit library code, not part of this repository;
spec sections 4.4 and 5) — a read-through cache keyed by (topic,
model_name): a hit younger than 3600 seconds returns the stored result and
skips orchestration entirely; otherwise the collaborator runs once and a
success populates the cache. -/
def cached_run (cache : List ((String × String) × CacheEntry))
    (topic model_name : String) (now : Nat) (attempt : Except String String) :
    Except String String × List ((String × String) × CacheEntry) × Nat :=
  match cacheLookup cache (topic, model_name) with
  | some e =>
      if now < e.stored_at + 3600 then (.ok e.result, cache, 0)
      else fresh_run cache topic model_name now attempt
  | none => fresh_run cache topic model_name now attempt

/- ## Theorems -/

/-- C1: for every generate run, the sequential kickoff of the two tasks
from create_tasks executes the research task strictly before the writing
task, the writing task declares its data dependency on the research
task, and the writing task receives exactly the research task output as
its context. -/
theorem orchestrator_research_before_writing
    (exec : TaskCore → String → String) (topic : String) (researcher writer : AgentSpec) :
    (create_tasks topic researcher writer).2.context =
      [(create_tasks topic researcher writer).1.core] ∧
    crew_kickoff exec
        [(create_tasks topic researcher writer).1,
         (create_tasks topic researcher writer).2] =
      [{ task := research_task_core topic researcher
         contextText := ""
         output := exec (research_task_core topic researcher) "" },
       { task := writing_task_core topic writer
         contextText := exec (research_task_core topic researcher) ""
         output := exec (writing_task_core topic writer)
                     (exec (research_task_core topic researcher) "") }] := by
  refine ⟨rfl, ?_⟩
  simp [create_tasks, crew_kickoff, seq_run, contextOf, lookupOutput, joinContext]

/-- C2: contrary to the spec, agent construction in src/AI_Blog_Agent/app.py
fails for every model identifier and credentials: get_clarifai_llm uses the
name LLM, which line 3 never imports, so every call raises NameError. -/
theorem create_agents_always_name_error (creds : Credentials) (model_name : String) :
    create_agents creds model_name = .error "NameError: name LLM is not defined" := rfl

/-- C3 counterexample: in the AL variant the generate button is enabled for
the whitespace-only, non-empty topic when both keys are supplied, so the
claim that the button is disabled in both variants for every
whitespace-only topic is false. -/
theorem generate_button_AL_whitespace_enabled :
    pyStrip " " = "" ∧ " " ≠ "" ∧ generate_disabled_AL " " "pat" "key" = false := by
  refine ⟨rfl, by decide, rfl⟩

/-- C3 amended: the AI variant disables the button for every empty or
whitespace-only topic; the AL variant disables it for the empty topic
(and for a missing key), while for a whitespace-only non-empty topic the
enabled button returns early with a warning before any orchestration, so
neither variant can start orchestration from such a topic. -/
theorem generate_button_blank_topic_amended :
    (∀ topic : String, pyStrip topic = "" → generate_disabled_AI topic = true) ∧
    (∀ clarifai_pat serper_key : String,
       generate_disabled_AL "" clarifai_pat serper_key = true) ∧
    (∀ (env : String → Option String)
       (topic clarifai_pat serper_key model_name : String)
       (attempt : Except String String), pyStrip topic = "" →
       click_flow_AL env topic clarifai_pat serper_key model_name attempt =
         ([UiEvent.warning_shown "Please enter a valid topic"], env)) := by
  refine ⟨?_, ?_, ?_⟩
  · intro t h
    simp [generate_disabled_AI, pyTruthy, h]
  · intro p k
    rfl
  · intro env t p k m a h
    simp [click_flow_AL, h]

/-- Witness for the amended C3 theorem at concrete inputs. -/
theorem generate_button_blank_topic_amended_witness :
    generate_disabled_AI " " = true ∧
    click_flow_AL (fun _ => none) " " "pat" "key" "m" (.ok "r") =
      ([UiEvent.warning_shown "Please enter a valid topic"], (fun _ => none)) :=
  ⟨generate_button_blank_topic_amended.1 " " rfl,
   generate_button_blank_topic_amended.2.2 (fun _ => none) " " "pat" "key" "m" (.ok "r") rfl⟩

/-- C7: the download filename replaces each space of the topic with an
underscore, truncates to 30 characters, and appends the markdown suffix;
in particular the topic My Topic!! yields a filename beginning with
My_Topic, the stem never exceeds 30 characters and contains no space. -/
theorem download_file_name_derivation :
    download_file_name "My Topic!!" = "My_Topic!!_blog.md" ∧
    (∃ rest : String, download_file_name "My Topic!!" = "My_Topic" ++ rest) ∧
    (∀ topic : String,
       download_file_name topic = pySlice 30 (pyReplaceSpace topic) ++ "_blog.md") ∧
    (∀ topic : String, (pySlice 30 (pyReplaceSpace topic)).length ≤ 30) ∧
    (∀ (topic : String) (c : Char),
       c ∈ (pySlice 30 (pyReplaceSpace topic)).data → c ≠ ' ') := by
  refine ⟨by decide, ⟨"!!_blog.md", by decide⟩, fun _ => rfl, ?_, ?_⟩
  · intro t
    have h : (pySlice 30 (pyReplaceSpace t)).length =
        ((pyReplaceSpace t).data.take 30).length := rfl
    rw [h, List.length_take]
    exact min_le_left _ _
  · intro t c hmem hcs
    subst hcs
    have hmem2 : ' ' ∈ (pyReplaceSpace t).data :=
      List.take_subset 30 (pyReplaceSpace t).data hmem
    simp [pyReplaceSpace] at hmem2
    obtain ⟨d, _, hd⟩ := hmem2
    by_cases hds : d = ' '
    · rw [if_pos hds] at hd
      exact absurd hd (by decide)
    · rw [if_neg hds] at hd
      exact hds hd

/-- Witness for the C7 theorem at a concrete character of the concrete
filename stem. -/
theorem download_file_name_derivation_witness :
    '_' ∈ (pySlice 30 (pyReplaceSpace "My Topic!!")).data ∧ ('_' : Char) ≠ ' ' :=
  ⟨by decide, download_file_name_derivation.2.2.2.2 "My Topic!!" '_' (by decide)⟩

/-- C4: when CLARIFAI_PAT is absent the script halts with the error naming
it and the session body (all orchestration) never runs; when CLARIFAI_PAT
is present but SERPER_API_KEY is absent the script halts naming
SERPER_API_KEY; when both are present the startup check succeeds and the
session runs with the two credentials. -/
theorem startup_halts_on_missing_credential :
    (∀ env : String → Option String, env "CLARIFAI_PAT" = none →
       startup_AI env = .error "Please set CLARIFAI_PAT environment variable" ∧
       ∀ session : Credentials → List String,
         app_run_AI env session = ["Please set CLARIFAI_PAT environment variable"]) ∧
    (∀ (env : String → Option String) (p : String),
       env "CLARIFAI_PAT" = some p → p ≠ "" → env "SERPER_API_KEY" = none →
       startup_AI env = .error "Please set SERPER_API_KEY environment variable" ∧
       ∀ session : Credentials → List String,
         app_run_AI env session = ["Please set SERPER_API_KEY environment variable"]) ∧
    (∀ (env : String → Option String) (p k : String),
       env "CLARIFAI_PAT" = some p → p ≠ "" →
       env "SERPER_API_KEY" = some k → k ≠ "" →
       startup_AI env = .ok { llmToken := p, searchKey := k } ∧
       ∀ session : Credentials → List String,
         app_run_AI env session = session { llmToken := p, searchKey := k }) := by
  refine ⟨?_, ?_, ?_⟩
  · intro env hc
    have hs : startup_AI env = .error "Please set CLARIFAI_PAT environment variable" := by
      simp [startup_AI, pyTruthyOpt, hc]
    exact ⟨hs, fun session => by simp [app_run_AI, hs]⟩
  · intro env p hc hp hk
    have hs : startup_AI env = .error "Please set SERPER_API_KEY environment variable" := by
      simp [startup_AI, pyTruthyOpt, pyTruthy, hc, hk, hp]
    exact ⟨hs, fun session => by simp [app_run_AI, hs]⟩
  · intro env p k hc hp hk hke
    have hs : startup_AI env = .ok { llmToken := p, searchKey := k } := by
      simp [startup_AI, pyTruthyOpt, pyTruthy, hc, hk, hp, hke]
    exact ⟨hs, fun session => by simp [app_run_AI, hs]⟩

/-- Witness for the C4 theorem at concrete environments. -/
theorem startup_halts_on_missing_credential_witness :
    app_run_AI (fun _ => none) (fun _ => ["blog"]) =
      ["Please set CLARIFAI_PAT environment variable"] ∧
    app_run_AI (fun v => if v = "CLARIFAI_PAT" then some "tok" else none)
        (fun _ => ["blog"]) =
      ["Please set SERPER_API_KEY environment variable"] ∧
    app_run_AI (fun v => if v = "CLARIFAI_PAT" then some "tok" else
        if v = "SERPER_API_KEY" then some "key" else none) (fun _ => ["blog"]) =
      ["blog"] :=
  ⟨(startup_halts_on_missing_credential.1 (fun _ => none) rfl).2 _,
   (startup_halts_on_missing_credential.2.1
      (fun v => if v = "CLARIFAI_PAT" then some "tok" else none) "tok"
      (by decide) (by decide) (by decide)).2 _,
   (startup_halts_on_missing_credential.2.2
      (fun v => if v = "CLARIFAI_PAT" then some "tok" else
        if v = "SERPER_API_KEY" then some "key" else none) "tok" "key"
      (by decide) (by decide) (by decide) (by decide)).2 _⟩

/-- C5: a miss followed by a successful run invokes the collaborator once
and populates the cache; a second run with the same (topic, model) within
3600 seconds of the stored entry invokes the collaborator zero times and
returns the stored result, so the two runs together invoke it at most
once; a run at or after expiry invokes it again and restores; a failed
fresh run leaves the cache unchanged. -/
theorem cache_at_most_once_within_window :
    (∀ (cache : List ((String × String) × CacheEntry))
       (topic model_name r : String) (t1 : Nat),
       cacheLookup cache (topic, model_name) = none →
       cached_run cache topic model_name t1 (.ok r) =
         (.ok r, ((topic, model_name), { result := r, stored_at := t1 }) :: cache, 1)) ∧
    (∀ (cache : List ((String × String) × CacheEntry))
       (topic model_name r : String) (t1 t2 : Nat) (attempt : Except String String),
       t2 < t1 + 3600 →
       cached_run (((topic, model_name), { result := r, stored_at := t1 }) :: cache)
           topic model_name t2 attempt =
         (.ok r, ((topic, model_name), { result := r, stored_at := t1 }) :: cache, 0)) ∧
    (∀ (cache : List ((String × String) × CacheEntry))
       (topic model_name r r2 : String) (t1 t3 : Nat),
       t1 + 3600 ≤ t3 →
       cached_run (((topic, model_name), { result := r, stored_at := t1 }) :: cache)
           topic model_name t3 (.ok r2) =
         (.ok r2, ((topic, model_name), { result := r2, stored_at := t3 }) ::
            ((topic, model_name), { result := r, stored_at := t1 }) :: cache, 1)) ∧
    (∀ (cache : List ((String × String) × CacheEntry))
       (topic model_name e : String) (now : Nat),
       cacheLookup cache (topic, model_name) = none →
       cached_run cache topic model_name now (.error e) = (.error e, cache, 1)) := by
  refine ⟨?_, ?_, ?_, ?_⟩
  · intro cache topic model_name r t1 h
    simp [cached_run, fresh_run, h]
  · intro cache topic model_name r t1 t2 attempt h
    simp [cached_run, cacheLookup, h]
  · intro cache topic model_name r r2 t1 t3 h
    simp [cached_run, cacheLookup, fresh_run, Nat.not_lt.mpr h]
  · intro cache topic model_name e now h
    simp [cached_run, fresh_run, h]

/-- Witness for the C5 theorem at concrete inputs. -/
theorem cache_at_most_once_within_window_witness :
    cached_run [] "t" "m" 0 (.ok "post") =
      (.ok "post", [(("t", "m"), { result := "post", stored_at := 0 })], 1) ∧
    cached_run [(("t", "m"), { result := "post", stored_at := 0 })] "t" "m" 10
        (.ok "other") =
      (.ok "post", [(("t", "m"), { result := "post", stored_at := 0 })], 0) ∧
    cached_run [(("t", "m"), { result := "post", stored_at := 0 })] "t" "m" 3600
        (.ok "other") =
      (.ok "other", [(("t", "m"), { result := "other", stored_at := 3600 }),
        (("t", "m"), { result := "post", stored_at := 0 })], 1) ∧
    cached_run [] "t" "m" 0 (.error "boom") = (.error "boom", [], 1) :=
  ⟨cache_at_most_once_within_window.1 [] "t" "m" "post" 0 rfl,
   cache_at_most_once_within_window.2.1 [] "t" "m" "post" 0 10 (.ok "other") (by decide),
   cache_at_most_once_within_window.2.2.1 [] "t" "m" "post" "other" 0 3600 (by decide),
   cache_at_most_once_within_window.2.2.2 [] "t" "m" "boom" 0 rfl⟩

/-- C6: when the collaborator attempt fails, both click handlers show
exactly the caught message prefixed by the fixed error label, make exactly
one kickoff attempt (no retry), and render no RunResult content. -/
theorem collaborator_failure_propagates :
    (∀ topic model_name e : String,
       click_flow_AI topic model_name (.error e) =
         [UiEvent.status_line "1. Researching topic...",
          UiEvent.status_line "2. Analyzing findings...",
          UiEvent.status_line "3. Writing blog post...",
          UiEvent.kickoff_attempt topic model_name,
          UiEvent.error_shown ("Error: " ++ e)] ∧
       countEv is_kickoff (click_flow_AI topic model_name (.error e)) = 1 ∧
       countEv is_result_render (click_flow_AI topic model_name (.error e)) = 0) ∧
    (∀ (env : String → Option String)
       (topic clarifai_pat serper_key model_name e : String),
       pyStrip topic ≠ "" → clarifai_pat ≠ "" → serper_key ≠ "" →
       (click_flow_AL env topic clarifai_pat serper_key model_name (.error e)).1 =
         [UiEvent.env_write "CLARIFAI_PAT" clarifai_pat,
          UiEvent.env_write "SERPER_API_KEY" serper_key,
          UiEvent.constructed "LLM",
          UiEvent.constructed "SerperDevTool",
          UiEvent.constructed "Agent researcher",
          UiEvent.constructed "Agent writer",
          UiEvent.constructed "Task research",
          UiEvent.constructed "Task writing",
          UiEvent.constructed "Crew",
          UiEvent.kickoff_attempt topic model_name,
          UiEvent.error_shown ("Error occurred: " ++ e)] ∧
       countEv is_kickoff
         (click_flow_AL env topic clarifai_pat serper_key model_name (.error e)).1 = 1 ∧
       countEv is_result_render
         (click_flow_AL env topic clarifai_pat serper_key model_name (.error e)).1 = 0) := by
  refine ⟨fun topic model_name e => ⟨rfl, rfl, rfl⟩, ?_⟩
  intro env topic clarifai_pat serper_key model_name e h1 h2 h3
  have hg : ¬(clarifai_pat = "" ∨ serper_key = "") := by
    rintro (h | h)
    · exact h2 h
    · exact h3 h
  have htrace :
      (click_flow_AL env topic clarifai_pat serper_key model_name (.error e)).1 =
        [UiEvent.env_write "CLARIFAI_PAT" clarifai_pat,
         UiEvent.env_write "SERPER_API_KEY" serper_key,
         UiEvent.constructed "LLM",
         UiEvent.constructed "SerperDevTool",
         UiEvent.constructed "Agent researcher",
         UiEvent.constructed "Agent writer",
         UiEvent.constructed "Task research",
         UiEvent.constructed "Task writing",
         UiEvent.constructed "Crew",
         UiEvent.kickoff_attempt topic model_name,
         UiEvent.error_shown ("Error occurred: " ++ e)] := by
    simp [click_flow_AL, if_neg h1, if_neg hg]
  exact ⟨htrace, by rw [htrace]; rfl, by rw [htrace]; rfl⟩

/-- Witness for the C6 theorem at concrete inputs. -/
theorem collaborator_failure_propagates_witness :
    countEv is_kickoff
      (click_flow_AL (fun _ => none) "T" "p" "k" "m" (.error "boom")).1 = 1 ∧
    countEv is_result_render
      (click_flow_AL (fun _ => none) "T" "p" "k" "m" (.error "boom")).1 = 0 :=
  ⟨(collaborator_failure_propagates.2 (fun _ => none) "T" "p" "k" "m" "boom"
      (by decide) (by decide) (by decide)).2.1,
   (collaborator_failure_propagates.2 (fun _ => none) "T" "p" "k" "m" "boom"
      (by decide) (by decide) (by decide)).2.2⟩

/-- C8 counterexample: in src/AL_Blog_Post/app.py the researcher goal
interpolates the topic, so the agent text varies with the topic, refuting
the claim that the descriptor text is parameterized only by the model. -/
theorem agent_goal_varies_with_topic :
    (create_agents_AL "A" { model := "m", api_key := "k", base_url := none }
        { kind := "SerperDevTool", api_key := some "s" }).1.goal ≠
      (create_agents_AL "B" { model := "m", api_key := "k", base_url := none }
        { kind := "SerperDevTool", api_key := some "s" }).1.goal := by
  decide

/-- C8 amended: in the AI variant the role, goal and backstory of both
agents are fixed literals independent of the model and of every other
input; in the AL variant the roles and backstories are fixed literals but
each goal is the fixed template with the topic interpolated, so the goals
vary with the topic. -/
theorem agent_text_templates_amended :
    (∀ llm1 llm2 : LLMSpec,
       (researcher_descr_AI llm1).role = (researcher_descr_AI llm2).role ∧
       (researcher_descr_AI llm1).goal = (researcher_descr_AI llm2).goal ∧
       (researcher_descr_AI llm1).backstory = (researcher_descr_AI llm2).backstory ∧
       (writer_descr_AI llm1).role = (writer_descr_AI llm2).role ∧
       (writer_descr_AI llm1).goal = (writer_descr_AI llm2).goal ∧
       (writer_descr_AI llm1).backstory = (writer_descr_AI llm2).backstory) ∧
    (∀ (topic : String) (llm : LLMSpec) (tool : ToolRef),
       (create_agents_AL topic llm tool).1.role = "Research Analyst" ∧
       (create_agents_AL topic llm tool).1.backstory =
         "You are an expert research analyst with deep knowledge across various domains." ∧
       (create_agents_AL topic llm tool).1.goal =
         "Research comprehensive information about " ++ topic ∧
       (create_agents_AL topic llm tool).2.role = "Content Writer" ∧
       (create_agents_AL topic llm tool).2.backstory =
         "You are a skilled content writer who creates engaging and informative blog posts." ∧
       (create_agents_AL topic llm tool).2.goal =
         "Write an engaging blog post about " ++ topic) :=
  ⟨fun _ _ => ⟨rfl, rfl, rfl, rfl, rfl, rfl⟩,
   fun _ _ _ => ⟨rfl, rfl, rfl, rfl, rfl, rfl⟩⟩

/-- C9: a generate click in the AL variant with a non-whitespace topic and
both keys writes exactly the two entered secrets into CLARIFAI_PAT and
SERPER_API_KEY, leaves every other environment variable unchanged, and its
trace contains exactly those two environment writes and no other ambient
side effect. -/
theorem credential_write_exact
    (env : String → Option String)
    (topic clarifai_pat serper_key model_name : String)
    (attempt : Except String String)
    (h1 : pyStrip topic ≠ "") (h2 : clarifai_pat ≠ "") (h3 : serper_key ≠ "") :
    (click_flow_AL env topic clarifai_pat serper_key model_name attempt).2
        "CLARIFAI_PAT" = some clarifai_pat ∧
    (click_flow_AL env topic clarifai_pat serper_key model_name attempt).2
        "SERPER_API_KEY" = some serper_key ∧
    (∀ x : String, x ≠ "CLARIFAI_PAT" → x ≠ "SERPER_API_KEY" →
       (click_flow_AL env topic clarifai_pat serper_key model_name attempt).2 x = env x) ∧
    envWrites (click_flow_AL env topic clarifai_pat serper_key model_name attempt).1 =
      [UiEvent.env_write "CLARIFAI_PAT" clarifai_pat,
       UiEvent.env_write "SERPER_API_KEY" serper_key] := by
  have hg : ¬(clarifai_pat = "" ∨ serper_key = "") := by
    rintro (h | h)
    · exact h2 h
    · exact h3 h
  refine ⟨?_, ?_, ?_, ?_⟩
  · simp [click_flow_AL, if_neg h1, if_neg hg]
  · simp [click_flow_AL, if_neg h1, if_neg hg]
  · intro x hx1 hx2
    simp [click_flow_AL, if_neg h1, if_neg hg, if_neg hx1, if_neg hx2]
  · rcases attempt with r | e <;>
      simp [click_flow_AL, if_neg h1, if_neg hg, envWrites]

/-- Witness for the C9 theorem at concrete inputs. -/
theorem credential_write_exact_witness :
    (click_flow_AL (fun _ => none) "T" "p" "k" "m" (.ok "post")).2
        "CLARIFAI_PAT" = some "p" ∧
    (click_flow_AL (fun _ => none) "T" "p" "k" "m" (.ok "post")).2
        "SERPER_API_KEY" = some "k" :=
  ⟨(credential_write_exact (fun _ => none) "T" "p" "k" "m" (.ok "post")
      (by decide) (by decide) (by decide)).1,
   (credential_write_exact (fun _ => none) "T" "p" "k" "m" (.ok "post")
      (by decide) (by decide) (by decide)).2.1⟩

/-- C10: in the AL variant a click on the enabled button with a non-empty
but whitespace-only topic shows only the warning and returns: the
environment function is returned unchanged, nothing is constructed, no
environment write and no kickoff appears in the trace. -/
theorem blank_topic_click_no_effect
    (env : String → Option String)
    (topic clarifai_pat serper_key model_name : String)
    (attempt : Except String String)
    (h0 : topic ≠ "") (h1 : pyStrip topic = "") (h2 : clarifai_pat ≠ "")
    (h3 : serper_key ≠ "") :
    generate_disabled_AL topic clarifai_pat serper_key = false ∧
    click_flow_AL env topic clarifai_pat serper_key model_name attempt =
      ([UiEvent.warning_shown "Please enter a valid topic"], env) ∧
    countEv is_kickoff
      (click_flow_AL env topic clarifai_pat serper_key model_name attempt).1 = 0 ∧
    envWrites
      (click_flow_AL env topic clarifai_pat serper_key model_name attempt).1 = [] := by
  have hc : click_flow_AL env topic clarifai_pat serper_key model_name attempt =
      ([UiEvent.warning_shown "Please enter a valid topic"], env) := by
    simp [click_flow_AL, h1]
  refine ⟨?_, hc, by rw [hc]; rfl, by rw [hc]; rfl⟩
  simp [generate_disabled_AL, pyTruthy, h0, h2, h3]

/-- Witness for the C10 theorem at concrete inputs. -/
theorem blank_topic_click_no_effect_witness :
    generate_disabled_AL " " "p" "k" = false ∧
    click_flow_AL (fun _ => none) " " "p" "k" "m" (.ok "post") =
      ([UiEvent.warning_shown "Please enter a valid topic"], (fun _ => none)) :=
  ⟨(blank_topic_click_no_effect (fun _ => none) " " "p" "k" "m" (.ok "post")
      (by decide) rfl (by decide) (by decide)).1,
   (blank_topic_click_no_effect (fun _ => none) " " "p" "k" "m" (.ok "post")
      (by decide) rfl (by decide) (by decide)).2.1⟩
